import Mathlib

/-!
Shallow embedding of the orderbook-based escrow contract
(src/state.rs, src/contract.rs, src/error.rs, src/msg.rs).

Modelling conventions:
* `Uint128` amounts and the `u64` order counter are modelled as `Nat`
  (no arithmetic in the verified paths can overflow-wrap observably).
* Addresses are strings.  The external `deps.api.addr_validate` of the
  host (cosmwasm-std, an external collaborator of this repository) is
  modelled as the identity on already-canonical addresses.
* The persistent `Map<U64Key, Order>` of cw-storage-plus is modelled as
  an association list keyed by the order identifier; `save` overwrites
  the binding for the key, `load` looks the key up.
* Rust `Result<_, ContractError>` becomes `Except ContractError _`; a
  handler returns the new state together with the `Response`, and an
  error leaves the state untouched (the host guarantees whole-call
  atomicity, which the pure `Except` encoding gives for free).
-/

namespace EscrowContract

/-- A native coin: `cosmwasm_std::Coin` (denom + amount). -/
structure Coin where
  denom : String
  amount : Nat
deriving DecidableEq, Repr

/-- A verified cw20 token holding: `cw20::Cw20CoinVerified`. -/
structure Cw20CoinVerified where
  address : String
  amount : Nat
deriving DecidableEq, Repr

/-- `state.rs::GenericBalance`: native entries and cw20 entries. -/
structure GenericBalance where
  native : List Coin
  cw20 : List Cw20CoinVerified
deriving DecidableEq, Repr

/-- `cw20::Balance`: the tag of an incoming deposit, either a vector of
native coins (`cw0::NativeBalance`) or a single cw20 token. -/
inductive Balance where
  | Native (coins : List Coin)
  | Cw20 (token : Cw20CoinVerified)
deriving DecidableEq, Repr

/-- `cw20::Balance::is_empty` (external crate): a native balance is
empty when no coin has a nonzero amount, a cw20 balance is empty when
its amount is zero. -/
def Balance.is_empty : Balance → Bool
  | .Native coins => coins.all (fun c => c.amount == 0)
  | .Cw20 token => token.amount == 0

/-- `state.rs::Order`. -/
structure Order where
  maker_address : String
  maker_token : GenericBalance
  taker_token : GenericBalance
  target_address : Option String
  is_open : Bool
deriving DecidableEq, Repr

/-- The storage error taxonomy (`cosmwasm_std::StdError`); the only
variant the contract's verified paths can surface is a failed
`ORDERS.load`, i.e. `not found`. -/
inductive StdError where
  | notFound
deriving DecidableEq, Repr

/-- `error.rs::ContractError`. -/
inductive ContractError where
  | Std (err : StdError)
  | Unauthorized
  | EmptyBalance
  | OrderInvalid (reason : String)
  | OrderClosed
  | OrderReserved
  | OrderUnmatched
deriving DecidableEq, Repr

/-- `msg.rs::OpenOrderMsg`. -/
structure OpenOrderMsg where
  taker_token : GenericBalance
  target_address : Option String
deriving DecidableEq, Repr

/-- `msg.rs::OrderResponse`, the projection returned by `query_order`. -/
structure OrderResponse where
  maker_address : String
  maker_token : GenericBalance
  taker_token : GenericBalance
  target_address : Option String
  is_open : Bool
deriving DecidableEq, Repr

/-- An outbound sub-message produced by settlement: either a
`BankMsg::Send` carrying a list of native coins, or a
`WasmMsg::Execute` of `Cw20ExecuteMsg::Transfer` on a token contract. -/
inductive SubMsg where
  | BankSend (to_address : String) (amount : List Coin)
  | Cw20Transfer (contract_addr : String) (recipient : String) (amount : Nat)
deriving DecidableEq, Repr

/-- The parts of `cosmwasm_std::Response` the contract populates. -/
structure Response where
  attributes : List (String × String)
  messages : List SubMsg
deriving DecidableEq, Repr

/-- The contract's persistent storage: the `ORDERS` map and the
`ORDER_COUNT` item (absent counter is read as 0, see `next_id`). -/
structure ContractState where
  orders : List (Nat × Order)
  order_count : Nat
deriving DecidableEq, Repr

/-- Storage as instantiated: no orders, no counter written yet. -/
def initialState : ContractState := { orders := [], order_count := 0 }

/-- `ORDERS.load` / `ORDERS.may_load`: look the identifier up. -/
def loadOrder (st : ContractState) (id : Nat) : Option Order :=
  (st.orders.find? (fun p => p.1 == id)).map (fun p => p.2)

/-- `ORDERS.save`: overwrite the binding for the identifier. -/
def saveOrder (st : ContractState) (id : Nat) (ord : Order) : ContractState :=
  { st with orders := (id, ord) :: st.orders.filter (fun p => p.1 != id) }

/-- `state.rs::next_id`: read the counter (0 when absent), add one,
persist it, return it. -/
def next_id (st : ContractState) : Nat × ContractState :=
  let id := st.order_count + 1
  (id, { st with order_count := id })

/-- The host api's `addr_validate`, modelled as the identity on
canonical addresses (external collaborator, see module docstring). -/
def addr_validate (s : String) : String := s

/-- The `match balance` arm of `execute_open_order` that builds the
maker's `GenericBalance` after rejecting native-for-native and
same-cw20-token orders. -/
def makerBalanceOf (balance : Balance) (taker_token : GenericBalance) :
    Except ContractError GenericBalance :=
  match balance with
  | .Native coins =>
    if ¬ taker_token.native = [] then
      .error (.OrderInvalid "Maker and taker tokens cannot both be native tokens.")
    else
      .ok { native := coins, cw20 := [] }
  | .Cw20 token =>
    if (match taker_token.cw20 with
        | [] => false
        | c :: _ => c.address == token.address) then
      .error (.OrderInvalid "Maker and taker tokens cannot be the same cw20 tokens.")
    else
      .ok { native := [], cw20 := [token] }

/-- `contract.rs::execute_open_order`. -/
def execute_open_order (st : ContractState) (balance : Balance) (sender : String)
    (message : OpenOrderMsg) : Except ContractError (ContractState × Response) :=
  if balance.is_empty then
    .error .EmptyBalance
  else if message.taker_token.native = [] ∧ message.taker_token.cw20 = [] then
    .error (.OrderInvalid "At least one native/cw20 token should be specified as a taker.")
  else if message.taker_token.native = [] ∧ message.taker_token.cw20.length > 1 then
    .error (.OrderInvalid "Only one cw20 token can be specified as a taker.")
  else if ¬ message.taker_token.native = [] ∧ ¬ message.taker_token.cw20 = [] then
    .error (.OrderInvalid "Only one native or cw20 token can be specified as a taker.")
  else
    match makerBalanceOf balance message.taker_token with
    | .error e => .error e
    | .ok maker_order_balance =>
      match next_id st with
      | (id, st1) =>
        .ok (saveOrder st1 id
            { maker_address := sender
              maker_token := maker_order_balance
              taker_token := message.taker_token
              target_address := message.target_address
              is_open := true },
          { attributes := [("method", "open_order"), ("order_id", toString id)]
            messages := [] })

/-- Normalization of an incoming deposit into a single-kind
`GenericBalance` (the `taker_order_balance` match in
`execute_close_order`). -/
def normalizeBalance : Balance → GenericBalance
  | .Native coins => { native := coins, cw20 := [] }
  | .Cw20 token => { native := [], cw20 := [token] }

/-- `contract.rs::send_tokens`: one `BankMsg::Send` carrying the whole
native list when it is nonempty, then one cw20 `Transfer` execute
message per cw20 entry, in insertion order. -/
def send_tokens (to_address : String) (balance : GenericBalance) : List SubMsg :=
  (if balance.native.isEmpty then [] else [SubMsg.BankSend to_address balance.native]) ++
    balance.cw20.map (fun c => SubMsg.Cw20Transfer c.address to_address c.amount)

/-- `contract.rs::execute_close_order`. -/
def execute_close_order (st : ContractState) (balance : Balance) (taker_address : String)
    (order_id : Nat) : Except ContractError (ContractState × Response) :=
  match loadOrder st order_id with
  | none => .error (.Std .notFound)
  | some order =>
    if ¬ order.is_open then
      .error .OrderClosed
    else if (match order.target_address with
             | some target_address => taker_address != addr_validate target_address
             | none => false) then
      .error .OrderReserved
    else if ¬ normalizeBalance balance = order.taker_token then
      .error .OrderUnmatched
    else
      .ok (saveOrder st order_id { order with is_open := false },
        { attributes := [("method", "close_order"), ("order_id", toString order_id)]
          messages := send_tokens order.maker_address (normalizeBalance balance) ++
            send_tokens taker_address order.maker_token })

/-- `contract.rs::query_order`. -/
def query_order (st : ContractState) (id : Nat) : Except StdError OrderResponse :=
  match loadOrder st id with
  | none => .error .notFound
  | some order =>
    .ok { maker_address := order.maker_address
          maker_token := order.maker_token
          taker_token := order.taker_token
          target_address := order.target_address
          is_open := order.is_open }

/-- The operations reachable through the dispatcher (`execute` /
`execute_receive`): open an order or close one. -/
inductive Op where
  | openOrder (balance : Balance) (sender : String) (message : OpenOrderMsg)
  | closeOrder (balance : Balance) (sender : String) (order_id : Nat)
deriving DecidableEq, Repr

/-- One dispatched call: on success the new storage, on error the old
storage unchanged (host atomicity). -/
def applyOp (st : ContractState) (op : Op) : ContractState :=
  match op with
  | .openOrder balance sender message =>
    match execute_open_order st balance sender message with
    | .ok (st', _) => st'
    | .error _ => st
  | .closeOrder balance sender order_id =>
    match execute_close_order st balance sender order_id with
    | .ok (st', _) => st'
    | .error _ => st

/-- Run a sequence of dispatched calls. -/
def runOps (st : ContractState) : List Op → ContractState
  | [] => st
  | op :: ops => runOps (applyOp st op) ops

/-- Whether a dispatched call is a successful open. -/
def isSuccessfulOpen (st : ContractState) (op : Op) : Bool :=
  match op with
  | .openOrder balance sender message =>
    match execute_open_order st balance sender message with
    | .ok _ => true
    | .error _ => false
  | .closeOrder _ _ _ => false

/-- The number of successful opens along a run. -/
def countSuccessfulOpens (st : ContractState) : List Op → Nat
  | [] => 0
  | op :: ops =>
    (if isSuccessfulOpen st op then 1 else 0) + countSuccessfulOpens (applyOp st op) ops

/-- The identifiers returned by the successful opens of a run, in
order (a successful open persists and returns `order_count + 1`). -/
def openIds (st : ContractState) : List Op → List Nat
  | [] => []
  | op :: ops =>
    if isSuccessfulOpen st op then (st.order_count + 1) :: openIds (applyOp st op) ops
    else openIds (applyOp st op) ops

/-! ### Storage lemmas -/

theorem loadOrder_mem {st : ContractState} {id : Nat} {o : Order}
    (h : loadOrder st id = some o) : (id, o) ∈ st.orders := by
  unfold loadOrder at h
  cases hf : st.orders.find? (fun p => p.1 == id) with
  | none => rw [hf] at h; cases h
  | some p =>
    rw [hf] at h
    have hp : p.1 = id := by simpa using List.find?_some hf
    have hmem := List.mem_of_find?_eq_some hf
    simp at h
    cases h
    cases p
    cases hp
    exact hmem

theorem loadOrder_saveOrder_self (st : ContractState) (id : Nat) (o : Order) :
    loadOrder (saveOrder st id o) id = some o := by
  unfold loadOrder saveOrder
  rw [List.find?_cons_of_pos _ (by simp)]
  rfl

theorem find?_filter_ne {l : List (Nat × Order)} {j id : Nat} (h : ¬ j = id) :
    (l.filter (fun p => p.1 != j)).find? (fun p => p.1 == id) =
      l.find? (fun p => p.1 == id) := by
  induction l with
  | nil => rfl
  | cons a l ih =>
    rw [List.filter_cons]
    by_cases ha : a.1 = j
    · rw [if_neg (by simp [ha])]
      rw [ih, List.find?_cons_of_neg]
      simp [ha, h]
    · rw [if_pos (by simp [ha])]
      by_cases hid : a.1 = id
      · rw [List.find?_cons_of_pos _ (by simp [hid]), List.find?_cons_of_pos _ (by simp [hid])]
      · rw [List.find?_cons_of_neg _ (by simp [hid]), List.find?_cons_of_neg _ (by simp [hid]),
          ih]

theorem loadOrder_saveOrder_ne {st : ContractState} {j id : Nat} (o : Order) (h : ¬ j = id) :
    loadOrder (saveOrder st j o) id = loadOrder st id := by
  unfold loadOrder saveOrder
  simp only
  rw [List.find?_cons_of_neg _ (by simp [h]), find?_filter_ne h]

theorem saveOrder_order_count (st : ContractState) (id : Nat) (o : Order) :
    (saveOrder st id o).order_count = st.order_count := rfl

/-! ### Closed-form equations for the handlers -/

theorem execute_close_order_of_load {st : ContractState} {id : Nat} {order : Order}
    (balance : Balance) (taker_address : String)
    (hload : loadOrder st id = some order) :
    execute_close_order st balance taker_address id =
      (if ¬ order.is_open then .error .OrderClosed
       else if (match order.target_address with
                | some target_address => taker_address != addr_validate target_address
                | none => false) then .error .OrderReserved
       else if ¬ normalizeBalance balance = order.taker_token then .error .OrderUnmatched
       else .ok (saveOrder st id { order with is_open := false },
         { attributes := [("method", "close_order"), ("order_id", toString id)]
           messages := send_tokens order.maker_address (normalizeBalance balance) ++
             send_tokens taker_address order.maker_token })) := by
  unfold execute_close_order
  rw [hload]

theorem makerBalanceOf_native (coins : List Coin) (tk : GenericBalance) :
    makerBalanceOf (.Native coins) tk =
      (if ¬ tk.native = [] then
        .error (.OrderInvalid "Maker and taker tokens cannot both be native tokens.")
       else .ok { native := coins, cw20 := [] }) := rfl

theorem makerBalanceOf_cw20 (token : Cw20CoinVerified) (tk : GenericBalance) :
    makerBalanceOf (.Cw20 token) tk =
      (if (match tk.cw20 with
           | [] => false
           | c :: _ => c.address == token.address) then
        .error (.OrderInvalid "Maker and taker tokens cannot be the same cw20 tokens.")
       else .ok { native := [], cw20 := [token] }) := rfl

/-! ### Inversion of the successful paths -/

theorem close_ok_inversion {st : ContractState} {balance : Balance} {taker : String}
    {id : Nat} {st' : ContractState} {r : Response}
    (h : execute_close_order st balance taker id = .ok (st', r)) :
    ∃ order, loadOrder st id = some order ∧ order.is_open = true ∧
      (∀ t, order.target_address = some t → taker = addr_validate t) ∧
      normalizeBalance balance = order.taker_token ∧
      st' = saveOrder st id { order with is_open := false } ∧
      r = { attributes := [("method", "close_order"), ("order_id", toString id)]
            messages := send_tokens order.maker_address (normalizeBalance balance) ++
              send_tokens taker order.maker_token } := by
  unfold execute_close_order at h
  split at h
  · cases h
  next order hload =>
    by_cases hopen : order.is_open = true
    case neg => rw [if_pos hopen] at h; cases h
    rw [if_neg (by simp [hopen])] at h
    by_cases htgt : (match order.target_address with
        | some target_address => taker != addr_validate target_address
        | none => false) = true
    case pos => rw [if_pos htgt] at h; cases h
    rw [if_neg htgt] at h
    by_cases heq : normalizeBalance balance = order.taker_token
    case neg => rw [if_pos (by simpa using heq)] at h; cases h
    rw [if_neg (by simpa using heq)] at h
    simp only [Except.ok.injEq, Prod.mk.injEq] at h
    refine ⟨order, hload, hopen, ?_, heq, h.1.symm, h.2.symm⟩
    intro t ht
    rw [ht] at htgt
    simpa using htgt

theorem makerBalanceOf_single_kind {balance : Balance} {tk : GenericBalance}
    {mb : GenericBalance} (hne : balance.is_empty = false)
    (h : makerBalanceOf balance tk = .ok mb) :
    (¬ mb.native = [] ∧ mb.cw20 = []) ∨ (mb.native = [] ∧ mb.cw20.length = 1) := by
  unfold makerBalanceOf at h
  split at h
  next coins =>
    by_cases ht : ¬ tk.native = []
    · rw [if_pos ht] at h; cases h
    · rw [if_neg ht] at h
      cases h
      left
      refine ⟨?_, rfl⟩
      intro hnil
      have hc : coins = [] := hnil
      rw [hc] at hne
      simp [Balance.is_empty] at hne
  next token =>
    by_cases hc : (match tk.cw20 with
        | [] => false
        | c :: _ => c.address == token.address) = true
    · rw [if_pos hc] at h; cases h
    · rw [if_neg hc] at h
      cases h
      right
      exact ⟨rfl, rfl⟩

theorem open_ok_inversion {st : ContractState} {balance : Balance} {sender : String}
    {message : OpenOrderMsg} {st' : ContractState} {r : Response}
    (h : execute_open_order st balance sender message = .ok (st', r)) :
    balance.is_empty = false ∧
    ((¬ message.taker_token.native = [] ∧ message.taker_token.cw20 = []) ∨
      (message.taker_token.native = [] ∧ message.taker_token.cw20.length = 1)) ∧
    ∃ mb, makerBalanceOf balance message.taker_token = .ok mb ∧
      ((¬ mb.native = [] ∧ mb.cw20 = []) ∨ (mb.native = [] ∧ mb.cw20.length = 1)) ∧
      st' = saveOrder { st with order_count := st.order_count + 1 } (st.order_count + 1)
          { maker_address := sender, maker_token := mb,
            taker_token := message.taker_token,
            target_address := message.target_address, is_open := true } ∧
      r = { attributes := [("method", "open_order"),
                           ("order_id", toString (st.order_count + 1))]
            messages := [] } := by
  unfold execute_open_order at h
  by_cases hemp : balance.is_empty = true
  case pos => rw [if_pos hemp] at h; cases h
  rw [if_neg hemp] at h
  by_cases h1 : message.taker_token.native = [] ∧ message.taker_token.cw20 = []
  case pos => rw [if_pos h1] at h; cases h
  rw [if_neg h1] at h
  by_cases h2 : message.taker_token.native = [] ∧ message.taker_token.cw20.length > 1
  case pos => rw [if_pos h2] at h; cases h
  rw [if_neg h2] at h
  by_cases h3 : ¬ message.taker_token.native = [] ∧ ¬ message.taker_token.cw20 = []
  case pos => rw [if_pos h3] at h; cases h
  rw [if_neg h3] at h
  have hne : balance.is_empty = false := by
    cases hb : balance.is_empty
    · rfl
    · exact absurd hb hemp
  refine ⟨hne, ?_, ?_⟩
  · by_cases hn : message.taker_token.native = []
    · right
      refine ⟨hn, ?_⟩
      have hc : ¬ message.taker_token.cw20 = [] := fun hc => h1 ⟨hn, hc⟩
      have hlen : ¬ message.taker_token.cw20.length > 1 := fun hl => h2 ⟨hn, hl⟩
      have : 1 ≤ message.taker_token.cw20.length := by
        cases hl : message.taker_token.cw20 with
        | nil => exact absurd hl hc
        | cons a l => simp [hl]
      omega
    · left
      refine ⟨hn, ?_⟩
      by_cases hc : message.taker_token.cw20 = []
      · exact hc
      · exact absurd ⟨hn, hc⟩ h3
  · split at h
    · cases h
    next mb hmk =>
      split at h
      next id st1 hnext =>
        simp only [Except.ok.injEq, Prod.mk.injEq] at h
        have hid : id = st.order_count + 1 ∧
            st1 = { st with order_count := st.order_count + 1 } := by
          simp only [next_id, Prod.mk.injEq] at hnext
          exact ⟨hnext.1.symm, hnext.2.symm⟩
        refine ⟨mb, hmk, makerBalanceOf_single_kind hne hmk, ?_, ?_⟩
        · rw [← h.1, hid.1, hid.2]
        · rw [← h.2, hid.1]

/-! ### Counter bookkeeping -/

theorem open_ok_order_count {st : ContractState} {balance : Balance} {sender : String}
    {message : OpenOrderMsg} {st' : ContractState} {r : Response}
    (h : execute_open_order st balance sender message = .ok (st', r)) :
    st'.order_count = st.order_count + 1 := by
  obtain ⟨-, -, mb, -, -, hst', -⟩ := open_ok_inversion h
  rw [hst']
  rfl

theorem close_ok_order_count {st : ContractState} {balance : Balance} {taker : String}
    {id : Nat} {st' : ContractState} {r : Response}
    (h : execute_close_order st balance taker id = .ok (st', r)) :
    st'.order_count = st.order_count := by
  obtain ⟨order, -, -, -, -, hst', -⟩ := close_ok_inversion h
  rw [hst']
  rfl

theorem applyOp_order_count (st : ContractState) (op : Op) :
    (applyOp st op).order_count =
      st.order_count + (if isSuccessfulOpen st op then 1 else 0) := by
  cases op with
  | openOrder balance sender message =>
    cases hr : execute_open_order st balance sender message with
    | ok p =>
      obtain ⟨st', r⟩ := p
      simp [applyOp, isSuccessfulOpen, hr, open_ok_order_count hr]
    | error e => simp [applyOp, isSuccessfulOpen, hr]
  | closeOrder balance sender order_id =>
    cases hr : execute_close_order st balance sender order_id with
    | ok p =>
      obtain ⟨st', r⟩ := p
      simp [applyOp, isSuccessfulOpen, hr, close_ok_order_count hr]
    | error e => simp [applyOp, isSuccessfulOpen, hr]

theorem runOps_order_count (ops : List Op) :
    ∀ st : ContractState,
      (runOps st ops).order_count = st.order_count + countSuccessfulOpens st ops := by
  induction ops with
  | nil => intro st; simp [runOps, countSuccessfulOpens]
  | cons op ops ih =>
    intro st
    show (runOps (applyOp st op) ops).order_count = _
    rw [ih, applyOp_order_count,
      show countSuccessfulOpens st (op :: ops) =
        (if isSuccessfulOpen st op then 1 else 0) +
          countSuccessfulOpens (applyOp st op) ops from rfl]
    omega

theorem applyOp_order_count_le (st : ContractState) (op : Op) :
    st.order_count ≤ (applyOp st op).order_count := by
  rw [applyOp_order_count]
  cases isSuccessfulOpen st op <;> simp

theorem openIds_lt (ops : List Op) :
    ∀ (st : ContractState) (x : Nat), x ∈ openIds st ops → st.order_count < x := by
  induction ops with
  | nil => intro st x hx; cases hx
  | cons op ops ih =>
    intro st x hx
    rw [show openIds st (op :: ops) =
      (if isSuccessfulOpen st op then (st.order_count + 1) :: openIds (applyOp st op) ops
       else openIds (applyOp st op) ops) from rfl] at hx
    by_cases hs : isSuccessfulOpen st op = true
    · rw [if_pos hs] at hx
      have hcount : (applyOp st op).order_count = st.order_count + 1 := by
        simp [applyOp_order_count, hs]
      cases hx with
      | head => omega
      | tail _ hx =>
        have := ih _ x hx
        omega
    · rw [if_neg hs] at hx
      have := ih _ x hx
      have hle := applyOp_order_count_le st op
      omega

theorem openIds_pairwise (ops : List Op) :
    ∀ st : ContractState, (openIds st ops).Pairwise (· < ·) := by
  induction ops with
  | nil => intro st; simp [openIds]
  | cons op ops ih =>
    intro st
    rw [show openIds st (op :: ops) =
      (if isSuccessfulOpen st op then (st.order_count + 1) :: openIds (applyOp st op) ops
       else openIds (applyOp st op) ops) from rfl]
    by_cases hs : isSuccessfulOpen st op = true
    · rw [if_pos hs]
      refine List.Pairwise.cons ?_ (ih _)
      intro y hy
      have hlt := openIds_lt ops _ y hy
      have hcount : (applyOp st op).order_count = st.order_count + 1 := by
        simp [applyOp_order_count, hs]
      omega
    · rw [if_neg hs]
      exact ih _

/-! ### Reachability invariants -/

/-- Every stored identifier is at most the issued counter value. -/
def Inv (st : ContractState) : Prop := ∀ p ∈ st.orders, p.1 ≤ st.order_count

theorem Inv_initial : Inv initialState := by
  intro p hp
  cases hp

theorem loadOrder_le {st : ContractState} {id : Nat} {o : Order}
    (hInv : Inv st) (h : loadOrder st id = some o) : id ≤ st.order_count :=
  hInv _ (loadOrder_mem h)

theorem Inv_saveOrder {st : ContractState} {id : Nat} (o : Order)
    (hInv : Inv st) (hle : id ≤ st.order_count) : Inv (saveOrder st id o) := by
  intro p hp
  rw [saveOrder_order_count]
  rcases List.mem_cons.mp hp with h | h
  · rw [h]
    exact hle
  · exact hInv p (List.mem_filter.mp h).1

theorem Inv_applyOp {st : ContractState} (hInv : Inv st) (op : Op) :
    Inv (applyOp st op) := by
  cases op with
  | openOrder balance sender message =>
    cases hr : execute_open_order st balance sender message with
    | error e => simpa [applyOp, hr] using hInv
    | ok p =>
      obtain ⟨st', r⟩ := p
      obtain ⟨-, -, mb, -, -, hst', -⟩ := open_ok_inversion hr
      simp only [applyOp, hr]
      rw [hst']
      refine Inv_saveOrder _ ?_ (le_refl _)
      intro q hq
      exact le_trans (hInv q hq) (Nat.le_succ _)
  | closeOrder balance sender order_id =>
    cases hr : execute_close_order st balance sender order_id with
    | error e => simpa [applyOp, hr] using hInv
    | ok p =>
      obtain ⟨st', r⟩ := p
      obtain ⟨order, hload, -, -, -, hst', -⟩ := close_ok_inversion hr
      simp only [applyOp, hr]
      rw [hst']
      exact Inv_saveOrder _ hInv (loadOrder_le hInv hload)

theorem Inv_runOps (ops : List Op) :
    ∀ st : ContractState, Inv st → Inv (runOps st ops) := by
  induction ops with
  | nil => intro st h; exact h
  | cons op ops ih => intro st h; exact ih _ (Inv_applyOp h op)

theorem close_not_found {st : ContractState} {id : Nat}
    (h : loadOrder st id = none) (balance : Balance) (taker : String) :
    execute_close_order st balance taker id = .error (.Std .notFound) := by
  unfold execute_close_order
  rw [h]

theorem close_on_closed {st : ContractState} {id : Nat} {o : Order}
    (hload : loadOrder st id = some o) (hclosed : o.is_open = false)
    (balance : Balance) (taker : String) :
    execute_close_order st balance taker id = .error .OrderClosed := by
  rw [execute_close_order_of_load balance taker hload, if_pos (by simp [hclosed])]

theorem closed_step {st : ContractState} {id : Nat} {o : Order}
    (hInv : Inv st) (hload : loadOrder st id = some o) (hclosed : o.is_open = false)
    (op : Op) : loadOrder (applyOp st op) id = some o := by
  cases op with
  | openOrder balance sender message =>
    cases hr : execute_open_order st balance sender message with
    | error e => simpa [applyOp, hr] using hload
    | ok p =>
      obtain ⟨st', r⟩ := p
      obtain ⟨-, -, mb, -, -, hst', -⟩ := open_ok_inversion hr
      have hle : id ≤ st.order_count := loadOrder_le hInv hload
      simp only [applyOp, hr]
      rw [hst', loadOrder_saveOrder_ne _ (by omega)]
      exact hload
  | closeOrder balance sender order_id =>
    cases hr : execute_close_order st balance sender order_id with
    | error e => simpa [applyOp, hr] using hload
    | ok p =>
      obtain ⟨st', r⟩ := p
      obtain ⟨oj, hloadj, hopenj, -, -, hst', -⟩ := close_ok_inversion hr
      by_cases hji : order_id = id
      · subst hji
        rw [hloadj] at hload
        cases hload
        rw [hopenj] at hclosed
        cases hclosed
      · simp only [applyOp, hr]
        rw [hst', loadOrder_saveOrder_ne _ hji]
        exact hload

theorem closed_persists {id : Nat} {o : Order} (hclosed : o.is_open = false)
    (ops : List Op) :
    ∀ st : ContractState, Inv st → loadOrder st id = some o →
      Inv (runOps st ops) ∧ loadOrder (runOps st ops) id = some o := by
  induction ops with
  | nil => intro st h1 h2; exact ⟨h1, h2⟩
  | cons op ops ih =>
    intro st h1 h2
    exact ih (applyOp st op) (Inv_applyOp h1 op) (closed_step h1 h2 hclosed op)

theorem close_result_unmatched_iff {st : ContractState} {id : Nat} {order : Order}
    (balance : Balance) (taker : String)
    (hload : loadOrder st id = some order) (hopen : order.is_open = true)
    (htarget : ∀ t, order.target_address = some t → taker = addr_validate t) :
    (execute_close_order st balance taker id = .error .OrderUnmatched ↔
      ¬ normalizeBalance balance = order.taker_token) := by
  have hb : ¬ ((match order.target_address with
      | some target_address => taker != addr_validate target_address
      | none => false) = true) := by
    cases ht : order.target_address with
    | none => simp
    | some t => simp [htarget t ht]
  rw [execute_close_order_of_load balance taker hload, if_neg (by simp [hopen]), if_neg hb]
  by_cases heq : normalizeBalance balance = order.taker_token
  · rw [if_neg (by simpa using heq)]
    simp [heq]
  · rw [if_pos (by simpa using heq)]
    simp [heq]

/-! ### Claim C1 -/

/-- C1: a successful close_order emits exactly the settlement of the
just-received taker deposit routed to the maker followed by the settlement of
the maker's original deposit routed to the closing depositor, and persists the
order as closed. -/
theorem claim1_close_order_settlement (st : ContractState) (balance : Balance)
    (taker : String) (id : Nat) (st' : ContractState) (r : Response)
    (h : execute_close_order st balance taker id = .ok (st', r)) :
    ∃ order, loadOrder st id = some order ∧ order.is_open = true ∧
      normalizeBalance balance = order.taker_token ∧
      r.messages = send_tokens order.maker_address (normalizeBalance balance) ++
        send_tokens taker order.maker_token ∧
      loadOrder st' id = some { order with is_open := false } := by
  obtain ⟨order, h1, h2, -, h4, h5, h6⟩ := close_ok_inversion h
  exact ⟨order, h1, h2, h4, by rw [h6],
    by rw [h5]; exact loadOrder_saveOrder_self st id _⟩

/-- Scenario A storage: order 1 open, maker deposited 100 native, asking
12345 of the cw20 token at my-cw20-token. -/
def c1State : ContractState :=
  { orders := [(1,
      { maker_address := "maker"
        maker_token := { native := [{ denom := "native", amount := 100 }], cw20 := [] }
        taker_token := { native := [], cw20 := [{ address := "my-cw20-token", amount := 12345 }] }
        target_address := none
        is_open := true })]
    order_count := 1 }

def c1Deposit : Balance := .Cw20 { address := "my-cw20-token", amount := 12345 }

def c1StateClosed : ContractState :=
  { orders := [(1,
      { maker_address := "maker"
        maker_token := { native := [{ denom := "native", amount := 100 }], cw20 := [] }
        taker_token := { native := [], cw20 := [{ address := "my-cw20-token", amount := 12345 }] }
        target_address := none
        is_open := false })]
    order_count := 1 }

def c1Resp : Response :=
  { attributes := [("method", "close_order"), ("order_id", "1")]
    messages := [.Cw20Transfer "my-cw20-token" "maker" 12345,
                 .BankSend "taker" [{ denom := "native", amount := 100 }]] }

theorem claim1_witness :
    ∃ order, loadOrder c1State 1 = some order ∧ order.is_open = true ∧
      normalizeBalance c1Deposit = order.taker_token ∧
      c1Resp.messages = send_tokens order.maker_address (normalizeBalance c1Deposit) ++
        send_tokens "taker" order.maker_token ∧
      loadOrder c1StateClosed 1 = some { order with is_open := false } :=
  claim1_close_order_settlement c1State c1Deposit "taker" 1 c1StateClosed c1Resp rfl

/-! ### Claim C2 -/

def c2Order : Order :=
  { maker_address := "maker"
    maker_token := { native := [], cw20 := [{ address := "tok", amount := 5 }] }
    taker_token := { native := [{ denom := "atom", amount := 1 },
                               { denom := "btc", amount := 2 }]
                     cw20 := [] }
    target_address := none
    is_open := true }

def c2State : ContractState := { orders := [(1, c2Order)], order_count := 1 }

def c2Deposit : Balance :=
  .Native [{ denom := "btc", amount := 2 }, { denom := "atom", amount := 1 }]

/-- C2 counterexample: a deposit whose normalized balance contains exactly the
same (key, amount) pairs as the stored taker requirement, in a different
sequence order, is rejected with OrderUnmatched: the comparison is not set
equality. -/
theorem claim2_counterexample :
    loadOrder c2State 1 = some c2Order ∧ c2Order.is_open = true ∧
    List.Perm (normalizeBalance c2Deposit).native c2Order.taker_token.native ∧
    List.Perm (normalizeBalance c2Deposit).cw20 c2Order.taker_token.cw20 ∧
    execute_close_order c2State c2Deposit "taker" 1 = .error .OrderUnmatched := by
  refine ⟨rfl, rfl, ?_, ?_, rfl⟩
  · decide
  · decide

/-- C2 amended: the balance comparison of close_order is sequence (structural)
equality of the native and cw20 vectors: for a stored open order whose target
restriction is satisfied, the close is rejected with OrderUnmatched exactly
when the normalized deposit differs componentwise, in order, from the stored
taker requirement. -/
theorem claim2_amended (st : ContractState) (balance : Balance) (taker : String)
    (id : Nat) (order : Order)
    (hload : loadOrder st id = some order) (hopen : order.is_open = true)
    (htarget : ∀ t, order.target_address = some t → taker = addr_validate t) :
    execute_close_order st balance taker id = .error .OrderUnmatched ↔
      ¬ normalizeBalance balance = order.taker_token :=
  close_result_unmatched_iff balance taker hload hopen htarget

theorem claim2_witness :
    execute_close_order c2State c2Deposit "taker" 1 = .error .OrderUnmatched ↔
      ¬ normalizeBalance c2Deposit = c2Order.taker_token :=
  claim2_amended c2State c2Deposit "taker" 1 c2Order rfl rfl
    (fun t ht => by simp [c2Order] at ht)

/-! ### Claim C3 -/

/-- C3 counterexample: a balance with two native entries and no cw20 entries
yields one batched bank-send instruction, not one instruction per native entry
(k + m = 2). -/
theorem claim3_counterexample :
    (send_tokens "recipient"
      { native := [{ denom := "atom", amount := 1 }, { denom := "btc", amount := 2 }]
        cw20 := [] }).length = 1 ∧
    ({ native := [{ denom := "atom", amount := 1 }, { denom := "btc", amount := 2 }]
       cw20 := [] } : GenericBalance).native.length +
      ({ native := [{ denom := "atom", amount := 1 }, { denom := "btc", amount := 2 }]
         cw20 := [] } : GenericBalance).cw20.length = 2 :=
  ⟨rfl, rfl⟩

/-- C3 amended: send_tokens produces a single bank-send instruction carrying
the whole native list when it is nonempty (none when empty), followed by one
token-contract invocation per cw20 entry in insertion order, for a total of
(0 or 1) + m instructions. -/
theorem claim3_amended (to_address : String) (balance : GenericBalance) :
    ∃ bank cw20_msgs,
      send_tokens to_address balance = bank ++ cw20_msgs ∧
      (if balance.native = [] then bank = []
       else bank = [SubMsg.BankSend to_address balance.native]) ∧
      cw20_msgs.length = balance.cw20.length ∧
      (∀ (i : Nat) (c : Cw20CoinVerified), balance.cw20[i]? = some c →
        cw20_msgs[i]? = some (SubMsg.Cw20Transfer c.address to_address c.amount)) ∧
      (send_tokens to_address balance).length =
        (if balance.native = [] then 0 else 1) + balance.cw20.length := by
  refine ⟨if balance.native.isEmpty then [] else [SubMsg.BankSend to_address balance.native],
    balance.cw20.map (fun (c : Cw20CoinVerified) =>
      SubMsg.Cw20Transfer c.address to_address c.amount),
    rfl, ?_, by simp, ?_, ?_⟩
  · by_cases h : balance.native = [] <;> simp [h]
  · intro i c hc
    simp [List.getElem?_map, hc]
  · unfold send_tokens
    by_cases h : balance.native = [] <;> simp [h]
    omega

theorem claim3_witness :
    ∃ bank cw20_msgs,
      send_tokens "recipient"
          { native := [{ denom := "atom", amount := 1 }]
            cw20 := [{ address := "tok", amount := 7 }] } = bank ++ cw20_msgs ∧
      (if ({ native := [{ denom := "atom", amount := 1 }]
             cw20 := [{ address := "tok", amount := 7 }] } : GenericBalance).native = []
       then bank = []
       else bank = [SubMsg.BankSend "recipient" [{ denom := "atom", amount := 1 }]]) ∧
      cw20_msgs.length = ([{ address := "tok", amount := 7 }] : List Cw20CoinVerified).length ∧
      (∀ (i : Nat) (c : Cw20CoinVerified),
        ([{ address := "tok", amount := 7 }] : List Cw20CoinVerified)[i]? = some c →
        cw20_msgs[i]? = some (SubMsg.Cw20Transfer c.address "recipient" c.amount)) ∧
      (send_tokens "recipient"
          { native := [{ denom := "atom", amount := 1 }]
            cw20 := [{ address := "tok", amount := 7 }] }).length =
        (if ({ native := [{ denom := "atom", amount := 1 }]
               cw20 := [{ address := "tok", amount := 7 }] } : GenericBalance).native = []
         then 0 else 1) + ([{ address := "tok", amount := 7 }] : List Cw20CoinVerified).length :=
  claim3_amended "recipient"
    { native := [{ denom := "atom", amount := 1 }]
      cw20 := [{ address := "tok", amount := 7 }] }

/-! ### Claim C4 -/

/-- C4: for a stored open order with no target restriction or a satisfied one,
a deposit that does not contain the pairs of the taker requirement (so any
overpayment or underpayment in particular) fails OrderUnmatched and mutates
no state. -/
theorem claim4_close_unmatched (st : ContractState) (balance : Balance)
    (taker : String) (id : Nat) (order : Order)
    (hload : loadOrder st id = some order) (hopen : order.is_open = true)
    (htarget : ∀ t, order.target_address = some t → taker = addr_validate t)
    (hne : ¬ (List.Perm (normalizeBalance balance).native order.taker_token.native ∧
              List.Perm (normalizeBalance balance).cw20 order.taker_token.cw20)) :
    execute_close_order st balance taker id = .error .OrderUnmatched ∧
    applyOp st (.closeOrder balance taker id) = st := by
  have heq : ¬ normalizeBalance balance = order.taker_token := by
    intro he
    rw [he] at hne
    exact hne ⟨List.Perm.refl _, List.Perm.refl _⟩
  have herr := (close_result_unmatched_iff balance taker hload hopen htarget).mpr heq
  exact ⟨herr, by simp [applyOp, herr]⟩

def c4Order : Order :=
  { maker_address := "maker"
    maker_token := { native := [], cw20 := [{ address := "tok", amount := 5 }] }
    taker_token := { native := [{ denom := "native", amount := 100 }], cw20 := [] }
    target_address := none
    is_open := true }

def c4State : ContractState := { orders := [(1, c4Order)], order_count := 1 }

theorem claim4_witness :
    (execute_close_order c4State (.Native [{ denom := "native", amount := 150 }]) "taker" 1 =
      .error .OrderUnmatched) ∧
    applyOp c4State (.closeOrder (.Native [{ denom := "native", amount := 150 }]) "taker" 1) =
      c4State :=
  claim4_close_unmatched c4State (.Native [{ denom := "native", amount := 150 }]) "taker" 1
    c4Order rfl rfl (fun t ht => by simp [c4Order] at ht) (by decide)

/-! ### Claim C5 -/

/-- C5: an order transitions from Open to Closed at most once and never back:
closing an absent identifier fails with the storage not-found error, closing a
non-open order fails OrderClosed whatever the deposit or sender, and after a
successful close from a reachable state every later close of that identifier
fails OrderClosed. -/
theorem claim5_lifecycle :
    (∀ (st : ContractState) (balance : Balance) (taker : String) (id : Nat),
      loadOrder st id = none →
      execute_close_order st balance taker id = .error (.Std .notFound)) ∧
    (∀ (st : ContractState) (balance : Balance) (taker : String) (id : Nat) (order : Order),
      loadOrder st id = some order → order.is_open = false →
      execute_close_order st balance taker id = .error .OrderClosed) ∧
    (∀ (ops : List Op) (balance : Balance) (taker : String) (id : Nat)
        (st' : ContractState) (r : Response),
      execute_close_order (runOps initialState ops) balance taker id = .ok (st', r) →
      ∀ (ops2 : List Op) (balance2 : Balance) (taker2 : String),
        execute_close_order (runOps st' ops2) balance2 taker2 id = .error .OrderClosed) := by
  refine ⟨fun st b t id h => close_not_found h b t,
    fun st b t id o h1 h2 => close_on_closed h1 h2 b t, ?_⟩
  intro ops b t id st' r h ops2 b2 t2
  have hInv : Inv (runOps initialState ops) := Inv_runOps ops initialState Inv_initial
  obtain ⟨order, hload, hopen, -, -, hst', -⟩ := close_ok_inversion h
  have hload2 : loadOrder st' id = some { order with is_open := false } := by
    rw [hst']
    exact loadOrder_saveOrder_self _ id _
  have hInv2 : Inv st' := by
    rw [hst']
    exact Inv_saveOrder _ hInv (loadOrder_le hInv hload)
  obtain ⟨-, hload3⟩ := closed_persists rfl ops2 st' hInv2 hload2
  exact close_on_closed hload3 rfl b2 t2

def c5Order : Order :=
  { maker_address := "maker"
    maker_token := { native := [{ denom := "native", amount := 100 }], cw20 := [] }
    taker_token := { native := [], cw20 := [{ address := "tok", amount := 1 }] }
    target_address := none
    is_open := false }

def c5State : ContractState := { orders := [(1, c5Order)], order_count := 1 }

def c5OpenMsg : OpenOrderMsg :=
  { taker_token := { native := [], cw20 := [{ address := "tok", amount := 1 }] }
    target_address := none }

def c5Ops : List Op :=
  [.openOrder (.Native [{ denom := "native", amount := 100 }]) "maker" c5OpenMsg]

def c5Closed : ContractState := { orders := [(1, c5Order)], order_count := 1 }

def c5Resp : Response :=
  { attributes := [("method", "close_order"), ("order_id", "1")]
    messages := [.Cw20Transfer "tok" "maker" 1,
                 .BankSend "taker" [{ denom := "native", amount := 100 }]] }

theorem claim5_witness :
    (execute_close_order initialState (.Native [{ denom := "x", amount := 1 }]) "t" 7 =
      .error (.Std .notFound)) ∧
    (execute_close_order c5State (.Cw20 { address := "tok", amount := 1 }) "taker" 1 =
      .error .OrderClosed) ∧
    (execute_close_order (runOps c5Closed []) (.Cw20 { address := "tok", amount := 1 })
      "other" 1 = .error .OrderClosed) :=
  ⟨claim5_lifecycle.1 initialState (.Native [{ denom := "x", amount := 1 }]) "t" 7 rfl,
   claim5_lifecycle.2.1 c5State (.Cw20 { address := "tok", amount := 1 }) "taker" 1
     c5Order rfl rfl,
   claim5_lifecycle.2.2 c5Ops (.Cw20 { address := "tok", amount := 1 }) "taker" 1
     c5Closed c5Resp rfl [] (.Cw20 { address := "tok", amount := 1 }) "other"⟩

/-! ### Claim C6 -/

/-- C6: the identifier counter starts at 0 and equals the number of successful
opens of any run; each successful open persists counter+1 and reports it as
the returned identifier (so an open after a run returns the count of previous
successful opens plus one), failed opens and all closes leave the state,
respectively the counter, alone, and returned identifiers strictly increase
along any run. -/
theorem claim6_identifier_counter :
    initialState.order_count = 0 ∧
    (∀ ops : List Op,
      (runOps initialState ops).order_count = countSuccessfulOpens initialState ops) ∧
    (∀ (ops : List Op) (balance : Balance) (sender : String) (message : OpenOrderMsg)
        (st' : ContractState) (r : Response),
      execute_open_order (runOps initialState ops) balance sender message = .ok (st', r) →
      r.attributes = [("method", "open_order"),
        ("order_id", toString (countSuccessfulOpens initialState ops + 1))]) ∧
    (∀ (st : ContractState) (balance : Balance) (sender : String) (message : OpenOrderMsg)
        (st' : ContractState) (r : Response),
      execute_open_order st balance sender message = .ok (st', r) →
      st'.order_count = st.order_count + 1 ∧
      r.attributes = [("method", "open_order"),
        ("order_id", toString (st.order_count + 1))]) ∧
    (∀ (st : ContractState) (balance : Balance) (sender : String) (message : OpenOrderMsg)
        (e : ContractError),
      execute_open_order st balance sender message = .error e →
      applyOp st (.openOrder balance sender message) = st) ∧
    (∀ (st : ContractState) (balance : Balance) (sender : String) (order_id : Nat),
      (applyOp st (.closeOrder balance sender order_id)).order_count = st.order_count) ∧
    (∀ ops : List Op, (openIds initialState ops).Pairwise (· < ·)) := by
  refine ⟨rfl, ?_, ?_, ?_, ?_, ?_, fun ops => openIds_pairwise ops initialState⟩
  · intro ops
    rw [runOps_order_count]
    simp [initialState]
  · intro ops b s m st' r h
    obtain ⟨-, -, mb, -, -, -, hr⟩ := open_ok_inversion h
    rw [hr, runOps_order_count]
    simp [initialState]
  · intro st b s m st' r h
    obtain ⟨-, -, mb, -, -, -, hr⟩ := open_ok_inversion h
    exact ⟨open_ok_order_count h, by rw [hr]⟩
  · intro st b s m e h
    simp [applyOp, h]
  · intro st b s i
    cases hr : execute_close_order st b s i with
    | ok p =>
      obtain ⟨st', r⟩ := p
      simp [applyOp, hr, close_ok_order_count hr]
    | error e => simp [applyOp, hr]

def c6Msg : OpenOrderMsg :=
  { taker_token := { native := [], cw20 := [{ address := "tok", amount := 9 }] }
    target_address := none }

def c6StateAfter : ContractState :=
  { orders := [(1,
      { maker_address := "maker"
        maker_token := { native := [{ denom := "native", amount := 3 }], cw20 := [] }
        taker_token := { native := [], cw20 := [{ address := "tok", amount := 9 }] }
        target_address := none
        is_open := true })]
    order_count := 1 }

def c6Resp : Response :=
  { attributes := [("method", "open_order"), ("order_id", "1")], messages := [] }

theorem claim6_witness :
    initialState.order_count = 0 ∧
    (runOps initialState [.openOrder (.Native [{ denom := "native", amount := 3 }])
      "maker" c6Msg]).order_count =
      countSuccessfulOpens initialState
        [.openOrder (.Native [{ denom := "native", amount := 3 }]) "maker" c6Msg] ∧
    c6Resp.attributes = [("method", "open_order"),
      ("order_id", toString (countSuccessfulOpens initialState ([] : List Op) + 1))] ∧
    (c6StateAfter.order_count = initialState.order_count + 1 ∧
      c6Resp.attributes = [("method", "open_order"),
        ("order_id", toString (initialState.order_count + 1))]) ∧
    applyOp initialState (.openOrder (.Native []) "maker" c6Msg) = initialState ∧
    (applyOp c6StateAfter (.closeOrder (.Native []) "x" 1)).order_count =
      c6StateAfter.order_count ∧
    (openIds initialState [.openOrder (.Native [{ denom := "native", amount := 3 }])
      "maker" c6Msg]).Pairwise (· < ·) :=
  ⟨claim6_identifier_counter.1,
   claim6_identifier_counter.2.1 _,
   claim6_identifier_counter.2.2.1 [] (.Native [{ denom := "native", amount := 3 }])
     "maker" c6Msg c6StateAfter c6Resp rfl,
   claim6_identifier_counter.2.2.2.1 initialState
     (.Native [{ denom := "native", amount := 3 }]) "maker" c6Msg c6StateAfter c6Resp rfl,
   claim6_identifier_counter.2.2.2.2.1 initialState (.Native []) "maker" c6Msg
     .EmptyBalance rfl,
   claim6_identifier_counter.2.2.2.2.2.1 c6StateAfter (.Native []) "x" 1,
   claim6_identifier_counter.2.2.2.2.2.2 _⟩

/-! ### Claim C7 -/

/-- C7: open_order validates fail-fast in the fixed source order: an empty
deposit fails EmptyBalance; otherwise a taker requirement naming zero asset
kinds, more than one cw20 entry, or both native and cw20 kinds fails
OrderInvalid; otherwise a native deposit with a native taker requirement fails
OrderInvalid, and a cw20 deposit whose taker requirement names the same
contract address fails OrderInvalid; every failure leaves the state (and with
it the identifier counter) untouched. -/
theorem claim7_open_validation :
    (∀ (st : ContractState) (balance : Balance) (sender : String) (message : OpenOrderMsg),
      balance.is_empty = true →
      execute_open_order st balance sender message = .error .EmptyBalance) ∧
    (∀ (st : ContractState) (balance : Balance) (sender : String) (message : OpenOrderMsg),
      balance.is_empty = false →
      message.taker_token.native = [] → message.taker_token.cw20 = [] →
      execute_open_order st balance sender message =
        .error (.OrderInvalid "At least one native/cw20 token should be specified as a taker.")) ∧
    (∀ (st : ContractState) (balance : Balance) (sender : String) (message : OpenOrderMsg),
      balance.is_empty = false →
      message.taker_token.native = [] → message.taker_token.cw20.length > 1 →
      execute_open_order st balance sender message =
        .error (.OrderInvalid "Only one cw20 token can be specified as a taker.")) ∧
    (∀ (st : ContractState) (balance : Balance) (sender : String) (message : OpenOrderMsg),
      balance.is_empty = false →
      ¬ message.taker_token.native = [] → ¬ message.taker_token.cw20 = [] →
      execute_open_order st balance sender message =
        .error (.OrderInvalid "Only one native or cw20 token can be specified as a taker.")) ∧
    (∀ (st : ContractState) (coins : List Coin) (sender : String) (message : OpenOrderMsg),
      (Balance.Native coins).is_empty = false →
      ¬ message.taker_token.native = [] → message.taker_token.cw20 = [] →
      execute_open_order st (.Native coins) sender message =
        .error (.OrderInvalid "Maker and taker tokens cannot both be native tokens.")) ∧
    (∀ (st : ContractState) (token : Cw20CoinVerified) (sender : String)
        (message : OpenOrderMsg) (c : Cw20CoinVerified),
      (Balance.Cw20 token).is_empty = false →
      message.taker_token.native = [] → message.taker_token.cw20 = [c] →
      c.address = token.address →
      execute_open_order st (.Cw20 token) sender message =
        .error (.OrderInvalid "Maker and taker tokens cannot be the same cw20 tokens.")) ∧
    (∀ (st : ContractState) (balance : Balance) (sender : String) (message : OpenOrderMsg)
        (e : ContractError),
      execute_open_order st balance sender message = .error e →
      applyOp st (.openOrder balance sender message) = st ∧
      (applyOp st (.openOrder balance sender message)).order_count = st.order_count) := by
  refine ⟨?_, ?_, ?_, ?_, ?_, ?_, ?_⟩
  · intro st b s m hemp
    unfold execute_open_order
    rw [if_pos hemp]
  · intro st b s m hemp hn hc
    unfold execute_open_order
    rw [if_neg (by simp [hemp]), if_pos ⟨hn, hc⟩]
  · intro st b s m hemp hn hlen
    unfold execute_open_order
    rw [if_neg (by simp [hemp]),
      if_neg (by rintro ⟨-, hc⟩; rw [hc] at hlen; simp at hlen),
      if_pos ⟨hn, hlen⟩]
  · intro st b s m hemp hn hc
    unfold execute_open_order
    rw [if_neg (by simp [hemp]),
      if_neg (by rintro ⟨h1, -⟩; exact hn h1),
      if_neg (by rintro ⟨h1, -⟩; exact hn h1),
      if_pos ⟨hn, hc⟩]
  · intro st coins s m hemp hn hc
    have hmk : makerBalanceOf (.Native coins) m.taker_token =
        .error (.OrderInvalid "Maker and taker tokens cannot both be native tokens.") := by
      rw [makerBalanceOf_native, if_pos hn]
    unfold execute_open_order
    rw [if_neg (by simp [hemp]),
      if_neg (by rintro ⟨h1, -⟩; exact hn h1),
      if_neg (by rintro ⟨h1, -⟩; exact hn h1),
      if_neg (by rintro ⟨-, h2⟩; exact h2 hc),
      hmk]
  · intro st token s m c hemp hn hcw haddr
    have hmk : makerBalanceOf (.Cw20 token) m.taker_token =
        .error (.OrderInvalid "Maker and taker tokens cannot be the same cw20 tokens.") := by
      rw [makerBalanceOf_cw20, if_pos (by rw [hcw]; simp [haddr])]
    unfold execute_open_order
    rw [if_neg (by simp [hemp]),
      if_neg (by rintro ⟨-, h2⟩; rw [hcw] at h2; simp at h2),
      if_neg (by rintro ⟨-, h2⟩; rw [hcw] at h2; simp at h2),
      if_neg (by rintro ⟨h1, -⟩; exact h1 hn),
      hmk]
  · intro st b s m e h
    exact ⟨by simp [applyOp, h], by simp [applyOp, h]⟩

def c7Msg : OpenOrderMsg :=
  { taker_token := { native := [], cw20 := [{ address := "tok", amount := 9 }] }
    target_address := none }

theorem claim7_witness :
    (execute_open_order initialState (.Native []) "m" c7Msg = .error .EmptyBalance) ∧
    (execute_open_order initialState (.Native [{ denom := "n", amount := 1 }]) "m"
      { taker_token := { native := [], cw20 := [] }, target_address := none } =
      .error (.OrderInvalid "At least one native/cw20 token should be specified as a taker.")) ∧
    (execute_open_order initialState (.Native [{ denom := "n", amount := 1 }]) "m"
      { taker_token := { native := []
                         cw20 := [{ address := "a", amount := 1 },
                                  { address := "b", amount := 2 }] }
        target_address := none } =
      .error (.OrderInvalid "Only one cw20 token can be specified as a taker.")) ∧
    (execute_open_order initialState (.Native [{ denom := "n", amount := 1 }]) "m"
      { taker_token := { native := [{ denom := "d", amount := 1 }]
                         cw20 := [{ address := "a", amount := 1 }] }
        target_address := none } =
      .error (.OrderInvalid "Only one native or cw20 token can be specified as a taker.")) ∧
    (execute_open_order initialState (.Native [{ denom := "n", amount := 1 }]) "m"
      { taker_token := { native := [{ denom := "d", amount := 1 }], cw20 := [] }
        target_address := none } =
      .error (.OrderInvalid "Maker and taker tokens cannot both be native tokens.")) ∧
    (execute_open_order initialState (.Cw20 { address := "tok", amount := 9 }) "m" c7Msg =
      .error (.OrderInvalid "Maker and taker tokens cannot be the same cw20 tokens.")) ∧
    (applyOp initialState (.openOrder (.Native []) "m" c7Msg) = initialState ∧
      (applyOp initialState (.openOrder (.Native []) "m" c7Msg)).order_count =
        initialState.order_count) :=
  ⟨claim7_open_validation.1 initialState (.Native []) "m" c7Msg rfl,
   claim7_open_validation.2.1 initialState (.Native [{ denom := "n", amount := 1 }]) "m"
     { taker_token := { native := [], cw20 := [] }, target_address := none } rfl rfl rfl,
   claim7_open_validation.2.2.1 initialState (.Native [{ denom := "n", amount := 1 }]) "m"
     { taker_token := { native := []
                        cw20 := [{ address := "a", amount := 1 },
                                 { address := "b", amount := 2 }] }
       target_address := none } rfl rfl (by decide),
   claim7_open_validation.2.2.2.1 initialState (.Native [{ denom := "n", amount := 1 }]) "m"
     { taker_token := { native := [{ denom := "d", amount := 1 }]
                        cw20 := [{ address := "a", amount := 1 }] }
       target_address := none } rfl (by decide) (by decide),
   claim7_open_validation.2.2.2.2.1 initialState [{ denom := "n", amount := 1 }] "m"
     { taker_token := { native := [{ denom := "d", amount := 1 }], cw20 := [] }
       target_address := none } rfl (by decide) rfl,
   claim7_open_validation.2.2.2.2.2.1 initialState { address := "tok", amount := 9 } "m"
     c7Msg { address := "tok", amount := 9 } rfl rfl rfl rfl,
   claim7_open_validation.2.2.2.2.2.2 initialState (.Native []) "m" c7Msg
     .EmptyBalance rfl⟩

/-! ### Claim C8 -/

/-- C8: when a stored open order carries a target address, a close from any
other address fails OrderReserved regardless of the deposit (the target check
precedes the deposit comparison, so a wrong-address close never reaches
OrderUnmatched), and a successful close implies the sender equals the target
after address normalization. -/
theorem claim8_target_reserved :
    (∀ (st : ContractState) (balance : Balance) (taker : String) (id : Nat)
        (order : Order) (t : String),
      loadOrder st id = some order → order.is_open = true →
      order.target_address = some t → ¬ taker = addr_validate t →
      execute_close_order st balance taker id = .error .OrderReserved) ∧
    (∀ (st : ContractState) (balance : Balance) (taker : String) (id : Nat)
        (st' : ContractState) (r : Response) (order : Order) (t : String),
      execute_close_order st balance taker id = .ok (st', r) →
      loadOrder st id = some order → order.target_address = some t →
      taker = addr_validate t) := by
  constructor
  · intro st b taker id order t hload hopen htgt hne
    rw [execute_close_order_of_load b taker hload, if_neg (by simp [hopen]),
      if_pos (by rw [htgt]; simpa using hne)]
  · intro st b taker id st' r order t h hload htgt
    obtain ⟨order2, hload2, -, htgtok, -, -, -⟩ := close_ok_inversion h
    rw [hload] at hload2
    cases hload2
    exact htgtok t htgt

def c8Order : Order :=
  { maker_address := "maker"
    maker_token := { native := [{ denom := "native", amount := 100 }], cw20 := [] }
    taker_token := { native := [], cw20 := [{ address := "tok", amount := 2 }] }
    target_address := some "target"
    is_open := true }

def c8State : ContractState := { orders := [(1, c8Order)], order_count := 1 }

def c8Closed : ContractState :=
  { orders := [(1, { c8Order with is_open := false })], order_count := 1 }

def c8Resp : Response :=
  { attributes := [("method", "close_order"), ("order_id", "1")]
    messages := [.Cw20Transfer "tok" "maker" 2,
                 .BankSend "target" [{ denom := "native", amount := 100 }]] }

theorem claim8_witness :
    (execute_close_order c8State (.Cw20 { address := "tok", amount := 2 }) "eve" 1 =
      .error .OrderReserved) ∧
    "target" = addr_validate "target" :=
  ⟨claim8_target_reserved.1 c8State (.Cw20 { address := "tok", amount := 2 }) "eve" 1
     c8Order "target" rfl rfl rfl (by decide),
   claim8_target_reserved.2 c8State (.Cw20 { address := "tok", amount := 2 }) "target" 1
     c8Closed c8Resp c8Order "target" rfl rfl rfl⟩

/-! ### Claim C9 -/

/-- C9: a successful close mutates only the open flag: the persisted record
keeps maker_address, maker_token, taker_token and target_address from open
time, every other identifier's binding is untouched, the counter is untouched,
and get_order on the identifier reports is_open = false with the unchanged
fields. -/
theorem claim9_close_frame (st : ContractState) (balance : Balance) (taker : String)
    (id : Nat) (st' : ContractState) (r : Response)
    (h : execute_close_order st balance taker id = .ok (st', r)) :
    ∃ order, loadOrder st id = some order ∧
      loadOrder st' id = some
        { maker_address := order.maker_address, maker_token := order.maker_token,
          taker_token := order.taker_token, target_address := order.target_address,
          is_open := false } ∧
      (∀ j : Nat, ¬ j = id → loadOrder st' j = loadOrder st j) ∧
      st'.order_count = st.order_count ∧
      query_order st' id = .ok
        { maker_address := order.maker_address, maker_token := order.maker_token,
          taker_token := order.taker_token, target_address := order.target_address,
          is_open := false } := by
  obtain ⟨order, hload, -, -, -, hst', -⟩ := close_ok_inversion h
  refine ⟨order, hload, ?_, ?_, ?_, ?_⟩
  · rw [hst']
    exact loadOrder_saveOrder_self st id _
  · intro j hj
    rw [hst']
    exact loadOrder_saveOrder_ne _ (fun hh => hj hh.symm)
  · rw [hst']
    rfl
  · rw [hst']
    unfold query_order
    rw [loadOrder_saveOrder_self]

theorem claim9_witness :
    ∃ order, loadOrder c1State 1 = some order ∧
      loadOrder c1StateClosed 1 = some
        { maker_address := order.maker_address, maker_token := order.maker_token,
          taker_token := order.taker_token, target_address := order.target_address,
          is_open := false } ∧
      (∀ j : Nat, ¬ j = 1 → loadOrder c1StateClosed j = loadOrder c1State j) ∧
      c1StateClosed.order_count = c1State.order_count ∧
      query_order c1StateClosed 1 = .ok
        { maker_address := order.maker_address, maker_token := order.maker_token,
          taker_token := order.taker_token, target_address := order.target_address,
          is_open := false } :=
  claim9_close_frame c1State c1Deposit "taker" 1 c1StateClosed c1Resp rfl

/-! ### Claim C10 -/

/-- A stored balance populated in exactly one asset kind: a nonempty native
list with no cw20 entries, or no native entries with exactly one cw20 entry. -/
def SingleKind (b : GenericBalance) : Prop :=
  (¬ b.native = [] ∧ b.cw20 = []) ∨ (b.native = [] ∧ b.cw20.length = 1)

theorem singleKind_applyOp {st : ContractState}
    (hst : ∀ p ∈ st.orders, SingleKind p.2.maker_token ∧ SingleKind p.2.taker_token)
    (op : Op) :
    ∀ p ∈ (applyOp st op).orders,
      SingleKind p.2.maker_token ∧ SingleKind p.2.taker_token := by
  cases op with
  | openOrder balance sender message =>
    cases hr : execute_open_order st balance sender message with
    | error e => simpa [applyOp, hr] using hst
    | ok q =>
      obtain ⟨st', r⟩ := q
      obtain ⟨-, htk, mb, -, hmb, hst', -⟩ := open_ok_inversion hr
      simp only [applyOp, hr]
      rw [hst']
      intro p hp
      rcases List.mem_cons.mp hp with hh | hh
      · rw [hh]
        exact ⟨hmb, htk⟩
      · exact hst p (List.mem_filter.mp hh).1
  | closeOrder balance sender order_id =>
    cases hr : execute_close_order st balance sender order_id with
    | error e => simpa [applyOp, hr] using hst
    | ok q =>
      obtain ⟨st', r⟩ := q
      obtain ⟨order, hload, -, -, -, hst', -⟩ := close_ok_inversion hr
      simp only [applyOp, hr]
      rw [hst']
      intro p hp
      rcases List.mem_cons.mp hp with hh | hh
      · rw [hh]
        have hmem := hst _ (loadOrder_mem hload)
        exact hmem
      · exact hst p (List.mem_filter.mp hh).1

/-- C10: in every state reachable by a sequence of opens and closes, every
persisted order has a maker_token populated in exactly one asset kind and a
taker_token naming exactly one asset kind. -/
theorem claim10_single_kind (ops : List Op) :
    ∀ p ∈ (runOps initialState ops).orders,
      SingleKind p.2.maker_token ∧ SingleKind p.2.taker_token := by
  suffices h : ∀ (ops : List Op) (st : ContractState),
      (∀ p ∈ st.orders, SingleKind p.2.maker_token ∧ SingleKind p.2.taker_token) →
      ∀ p ∈ (runOps st ops).orders,
        SingleKind p.2.maker_token ∧ SingleKind p.2.taker_token by
    exact h ops initialState (fun p hp => by simp [initialState] at hp)
  intro ops
  induction ops with
  | nil => intro st h; exact h
  | cons op ops ih =>
    intro st h
    exact ih _ (singleKind_applyOp h op)

def c10Order : Order :=
  { maker_address := "maker"
    maker_token := { native := [{ denom := "native", amount := 100 }], cw20 := [] }
    taker_token := { native := [], cw20 := [{ address := "tok", amount := 1 }] }
    target_address := none
    is_open := true }

theorem claim10_witness :
    SingleKind ((1, c10Order) : Nat × Order).2.maker_token ∧
    SingleKind ((1, c10Order) : Nat × Order).2.taker_token :=
  claim10_single_kind
    [.openOrder (.Native [{ denom := "native", amount := 100 }]) "maker" c5OpenMsg]
    (1, c10Order) (by decide)

end EscrowContract
